import Mathlib

/-!
Verification of the ha-meteoswiss polling-and-normalization core.

Shallow embedding of `custom_components/meteoswiss/{cache,retry,alerts,
stations_map,coordinator,forecast_coordinator}.py`.  Python `time.time()`
and `datetime` values are modelled as rational epoch seconds; Python
`float` arithmetic on the small decimal values involved is modelled
exactly over `ℚ`; a Python value that may be `None` is modelled as an
`Option`; a Python function that may raise is modelled with `Except`.
-/

namespace MeteoSwiss

instance {ε α : Type} [DecidableEq ε] [DecidableEq α] : DecidableEq (Except ε α) :=
  fun a b =>
    match a, b with
    | .ok x, .ok y =>
      if h : x = y then .isTrue (congrArg Except.ok h)
      else .isFalse (fun hc => h (Except.ok.inj hc))
    | .error x, .error y =>
      if h : x = y then .isTrue (congrArg Except.error h)
      else .isFalse (fun hc => h (Except.error.inj hc))
    | .ok _, .error _ => .isFalse (fun hc => Except.noConfusion hc)
    | .error _, .ok _ => .isFalse (fun hc => Except.noConfusion hc)

/-! ### Association-list primitives modelling Python `dict` operations -/

/-- `d.get(k)` / `k in d` lookup on an insertion-ordered dictionary. -/
def assocLookup (k : String) : List (String × α) → Option α
  | [] => none
  | (k2, v) :: rest => if k2 = k then some v else assocLookup k rest

/-- `d[k] = v`: replace in place if the key exists, else append. -/
def assocSet (k : String) (v : α) : List (String × α) → List (String × α)
  | [] => [(k, v)]
  | (k2, w) :: rest => if k2 = k then (k2, v) :: rest else (k2, w) :: assocSet k v rest

/-- `del d[k]`. -/
def assocRemove (k : String) : List (String × α) → List (String × α)
  | [] => []
  | (k2, v) :: rest => if k2 = k then assocRemove k rest else (k2, v) :: assocRemove k rest

theorem assocLookup_assocSet (k : String) (v : α) (l : List (String × α)) :
    assocLookup k (assocSet k v l) = some v := by
  induction l with
  | nil => simp [assocSet, assocLookup]
  | cons hd tl ih =>
    by_cases h : hd.1 = k
    · simp [assocSet, assocLookup, h]
    · simp [assocSet, assocLookup, h, ih]

theorem assocLookup_assocRemove (k : String) (l : List (String × α)) :
    assocLookup k (assocRemove k l) = none := by
  induction l with
  | nil => simp [assocRemove, assocLookup]
  | cons hd tl ih =>
    by_cases h : hd.1 = k
    · simp [assocRemove, h, ih]
    · simp [assocRemove, assocLookup, h, ih]

/-! ### cache.py — `CacheEntry` and `MeteoSwissCache` -/

/-- `CacheEntry` dataclass: the stored value may be Python `None`. -/
structure CacheEntry (ν : Type) where
  key : String
  value : Option ν
  timestamp : ℚ
  ttl : ℚ
deriving DecidableEq

/-- `CacheEntry.is_expired`: `time.time() - self.timestamp > self.ttl`. -/
def CacheEntry.isExpired (e : CacheEntry ν) (now : ℚ) : Bool :=
  now - e.timestamp > e.ttl

/-- `MeteoSwissCache` state: entry dictionary, default TTL, counters. -/
structure Cache (ν : Type) where
  cache : List (String × CacheEntry ν)
  defaultTtl : ℚ
  hits : ℕ
  misses : ℕ
  evictions : ℕ
deriving DecidableEq

/-- `MeteoSwissCache.__init__(default_ttl)`. -/
def Cache.mk0 (ν : Type) (defaultTtl : ℚ) : Cache ν :=
  { cache := [], defaultTtl := defaultTtl, hits := 0, misses := 0, evictions := 0 }

/-- `MeteoSwissCache.get`: miss on absent key; lazy eviction plus a counted
miss on an expired entry; otherwise a counted hit returning the stored
value (`None` results and missing keys are both surfaced as `None`). -/
def Cache.get (st : Cache ν) (now : ℚ) (key : String) : Option ν × Cache ν :=
  match assocLookup key st.cache with
  | none => (none, { st with misses := st.misses + 1 })
  | some e =>
    if e.isExpired now then
      (none, { st with evictions := st.evictions + 1,
                       cache := assocRemove key st.cache,
                       misses := st.misses + 1 })
    else
      (e.value, { st with hits := st.hits + 1 })

/-- `MeteoSwissCache.set`: `ttl = None` selects the default TTL. -/
def Cache.set (st : Cache ν) (now : ℚ) (key : String) (value : Option ν)
    (ttl : Option ℚ) : Cache ν :=
  let t := ttl.getD st.defaultTtl
  let e : CacheEntry ν := { key := key, value := value, timestamp := now, ttl := t }
  { st with cache := assocSet key e st.cache }

/-- `MeteoSwissCache.get_or_set`: `get`, then `if value is not None: return
value`, else run the factory and write the result through. -/
def Cache.getOrSet (st : Cache ν) (now : ℚ) (key : String)
    (factory : Unit → Option ν) (ttl : Option ℚ) : Option ν × Cache ν :=
  match st.get now key with
  | (some v, st1) => (some v, st1)
  | (none, st1) =>
    let v := factory ()
    (v, st1.set now key v ttl)

/-- Round half-to-even to an integer, as Python `round` does on an
exactly-representable value. -/
def roundHalfEven (q : ℚ) : ℤ :=
  let f := ⌊q⌋
  let r := q - (f : ℚ)
  if r < 1/2 then f
  else if r > 1/2 then f + 1
  else if f % 2 = 0 then f else f + 1

/-- Python `round(x, 2)`. -/
def pyRound2 (q : ℚ) : ℚ := (roundHalfEven (q * 100) : ℚ) / 100

/-- The dictionary returned by `MeteoSwissCache.get_stats`. -/
structure CacheStats where
  entries : ℕ
  hits : ℕ
  misses : ℕ
  evictions : ℕ
  hitRate : ℚ
  totalRequests : ℕ
deriving DecidableEq

/-- `MeteoSwissCache.get_stats`: `hit_rate = round(hits / total * 100, 2)`
when `total > 0`, else `0.0`. -/
def Cache.getStats (st : Cache ν) : CacheStats :=
  let total := st.hits + st.misses
  let hitRate : ℚ :=
    if total > 0 then pyRound2 ((st.hits : ℚ) / (total : ℚ) * 100) else 0
  { entries := st.cache.length, hits := st.hits, misses := st.misses,
    evictions := st.evictions, hitRate := hitRate, totalRequests := total }

/-- Fresh cache brought to one recorded hit and one recorded miss through
the public operations: `set`, a hit `get`, then a `get` on an absent key. -/
def c8State : Cache ℕ :=
  ((((Cache.mk0 ℕ 300).set 0 "a" (some 1) none).get 0 "a").2.get 0 "b").2

/-- C4: a `set(key, value, ttl)` at time `t0` yields an entry that `get`
returns (counting a hit) at any `now < t0 + ttl`, that `get` evicts,
counts a miss and an eviction for, and returns absent at any
`now - t0 > ttl`, and that is expired exactly when `now - t0 > ttl`. -/
theorem cache_ttl_correctness {ν : Type} (st : Cache ν) (k : String) (v : Option ν)
    (ttl t0 now : ℚ) :
    (now < t0 + ttl →
      ((st.set t0 k v (some ttl)).get now k).1 = v ∧
      ((st.set t0 k v (some ttl)).get now k).2.hits = st.hits + 1) ∧
    (now - t0 > ttl →
      ((st.set t0 k v (some ttl)).get now k).1 = none ∧
      assocLookup k (((st.set t0 k v (some ttl)).get now k).2.cache) = none ∧
      ((st.set t0 k v (some ttl)).get now k).2.evictions = st.evictions + 1 ∧
      ((st.set t0 k v (some ttl)).get now k).2.misses = st.misses + 1) ∧
    ((CacheEntry.mk k v t0 ttl).isExpired now = true ↔ now - t0 > ttl) := by
  refine ⟨?_, ?_, ?_⟩
  · intro h
    have hne : ¬ (now - t0 > ttl) := by linarith
    simp [Cache.set, Cache.get, assocLookup_assocSet, CacheEntry.isExpired, hne]
  · intro h
    simp [Cache.set, Cache.get, assocLookup_assocSet, CacheEntry.isExpired, h,
      assocLookup_assocRemove]
  · simp [CacheEntry.isExpired]

/-- Witness for `cache_ttl_correctness`: ttl 10 set at t0 = 0, hit at 3,
evicted miss at 11. -/
theorem cache_ttl_correctness_witness :
    (((Cache.mk0 ℕ 300).set 0 "k" (some 5) (some 10)).get 3 "k").1 = some 5 ∧
    (((Cache.mk0 ℕ 300).set 0 "k" (some 5) (some 10)).get 11 "k").1 = none :=
  ⟨((cache_ttl_correctness (Cache.mk0 ℕ 300) "k" (some 5) 10 0 3).1 (by norm_num)).1,
   ((cache_ttl_correctness (Cache.mk0 ℕ 300) "k" (some 5) 10 0 11).2.1 (by norm_num)).1⟩

theorem c8State_eval : c8State =
    { cache := [("a", { key := "a", value := some 1, timestamp := 0, ttl := 300 })],
      defaultTtl := 300, hits := 1, misses := 1, evictions := 0 } := by
  norm_num [c8State, Cache.mk0, Cache.set, Cache.get, assocSet, assocLookup,
    CacheEntry.isExpired, show ("a" : String) ≠ "b" by decide]

/-- C8 counterexample: with one hit and one miss recorded the exposed
`hit_rate` is the rounded percentage `50`, not the ratio
`hits / (hits + misses) = 1/2` the claim states. -/
theorem cache_hit_rate_counterexample :
    (c8State.getStats).hits = 1 ∧ (c8State.getStats).misses = 1 ∧
    (c8State.getStats).hitRate = 50 ∧
    (c8State.getStats).hitRate ≠
      ((c8State.getStats).hits : ℚ) /
        (((c8State.getStats).hits : ℚ) + ((c8State.getStats).misses : ℚ)) := by
  rw [c8State_eval]
  refine ⟨rfl, rfl, ?_, ?_⟩ <;>
  norm_num [Cache.getStats, pyRound2, roundHalfEven]

/-- C8 amended: `get_stats` reports the tracked `hits`, `misses` and
`evictions` counters verbatim, and `hit_rate` is the percentage
`hits / (hits + misses) * 100` rounded to two decimal places (not the
bare ratio). -/
theorem cache_hit_rate_amended {ν : Type} (st : Cache ν) (h : 0 < st.hits + st.misses) :
    (st.getStats).hits = st.hits ∧ (st.getStats).misses = st.misses ∧
    (st.getStats).evictions = st.evictions ∧
    (st.getStats).hitRate =
      pyRound2 ((st.hits : ℚ) / ((st.hits : ℚ) + (st.misses : ℚ)) * 100) := by
  refine ⟨rfl, rfl, rfl, ?_⟩
  simp only [Cache.getStats, h, if_pos]
  push_cast
  rfl

/-- Witness for `cache_hit_rate_amended` at the concrete two-request state. -/
theorem cache_hit_rate_amended_witness :
    (c8State.getStats).hitRate =
      pyRound2 ((c8State.hits : ℚ) / ((c8State.hits : ℚ) + (c8State.misses : ℚ)) * 100) :=
  (cache_hit_rate_amended c8State (by rw [c8State_eval]; norm_num)).2.2.2

/-- C9: a stored `None` is indistinguishable from absence: after
`set(key, None, ttl)` an in-TTL `get` returns `None` yet counts a hit,
an in-TTL `get_or_set` runs the factory again and overwrites the entry,
and the get-after-set round trip law holds for non-`None` values. -/
theorem cache_none_value_aliasing {ν : Type} (st : Cache ν) (k : String)
    (ttl t0 now : ℚ) (ttl2 : Option ℚ) (factory : Unit → Option ν) (v : ν)
    (h : ¬ (now - t0 > ttl)) :
    (((st.set t0 k none (some ttl)).get now k).1 = none ∧
     ((st.set t0 k none (some ttl)).get now k).2.hits = st.hits + 1) ∧
    (((st.set t0 k none (some ttl)).getOrSet now k factory ttl2).1 = factory () ∧
     assocLookup k ((st.set t0 k none (some ttl)).getOrSet now k factory ttl2).2.cache =
       some { key := k, value := factory (), timestamp := now,
              ttl := ttl2.getD st.defaultTtl } ∧
     ((st.set t0 k none (some ttl)).getOrSet now k factory ttl2).2.hits = st.hits + 1) ∧
    ((st.set t0 k (some v) (some ttl)).get now k).1 = some v := by
  refine ⟨?_, ?_, ?_⟩
  · simp [Cache.set, Cache.get, assocLookup_assocSet, CacheEntry.isExpired, h]
  · simp [Cache.set, Cache.get, Cache.getOrSet, assocLookup_assocSet,
      CacheEntry.isExpired, h]
  · simp [Cache.set, Cache.get, assocLookup_assocSet, CacheEntry.isExpired, h]

/-- Witness for `cache_none_value_aliasing`: `None` stored at 0 with ttl
10, read back at 3; the factory producing `7` is re-run. -/
theorem cache_none_value_aliasing_witness :
    (((Cache.mk0 ℕ 300).set 0 "k" none (some 10)).getOrSet 3 "k"
        (fun _ => some 7) none).1 = some 7 :=
  ((cache_none_value_aliasing (Cache.mk0 ℕ 300) "k" 10 0 3 none
      (fun _ => some 7) 9 (by norm_num)).2.1).1

/-! ### retry.py — `async_retry_with_backoff` -/

/-- The three parameters of `async_retry_with_backoff`. -/
structure RetryParams where
  maxAttempts : ℕ
  baseDelay : ℚ
  maxDelay : ℚ
deriving DecidableEq

/-- A Python runtime error relevant to this embedding. -/
inductive PyErr where
  | typeError
deriving DecidableEq

/-- A Python value sitting in decorator position: either a callable or a
coroutine object (the result of calling an `async def` function). -/
inductive PyCallable (α β : Type) where
  | plain (g : α → β)
  | coroutine (p : RetryParams)

/-- Calling `async_retry_with_backoff(max_attempts, base_delay, max_delay)`:
the factory is declared `async def`, so the call returns a coroutine
object and the body building `decorator` does not run. -/
def asyncRetryWithBackoff (α β : Type) (p : RetryParams) : PyCallable α β :=
  .coroutine p

/-- Applying a decorator expression to the decorated function
(`@expr` applies `expr(func)`): a coroutine object is not callable,
so the application raises `TypeError`. -/
def pyCall (v : PyCallable α β) (a : α) : Except PyErr β :=
  match v with
  | .plain g => .ok (g a)
  | .coroutine _ => .error .typeError

/-- The retry loop of the `wrapper` closure inside
`async_retry_with_backoff`.  `op n` is the outcome of the n-th attempt
(1-based); `remaining` counts loop iterations left, so the call at
attempt `a` has `remaining = maxAttempts - a + 1` and `attempt <
max_attempts` is `remaining > 1`.  Returns the final outcome, the number
of attempts made, and the list of back-off sleeps, each
`min(base_delay * 2 ** (attempt - 1), max_delay)`. -/
def retryLoop (op : ℕ → Except ε α) (base maxD : ℚ) :
    ℕ → ℕ → Option (Except ε α × ℕ × List ℚ)
  | _, 0 => none
  | attempt, r + 1 =>
    match op attempt with
    | .ok a => some (.ok a, 1, [])
    | .error e =>
      if r = 0 then some (.error e, 1, [])
      else
        let d := min (base * 2 ^ (attempt - 1)) maxD
        match retryLoop op base maxD (attempt + 1) r with
        | none => none
        | some (res, c, ds) => some (res, c + 1, d :: ds)

/-- The semantics the `wrapper` closure would have: run the loop from
attempt 1; with `max_attempts = 0` the loop body never runs and the
wrapper falls through (Python returns `None`), modelled as `none`. -/
def retryWrapper (p : RetryParams) (op : ℕ → Except ε α) :
    Option (Except ε α × ℕ × List ℚ) :=
  retryLoop op p.baseDelay p.maxDelay 1 p.maxAttempts

/-- C3: as used at `pollen_coordinator_openmeteo.py` line 71, decorating
an operation with `async_retry_with_backoff(max_attempts=4,
base_delay=1.0, max_delay=10.0)` raises `TypeError` — the factory is
`async def`, so the decorator expression is a coroutine object, not the
decorator — hence no wrapped operation is ever invoked; the wrapper
body itself, had it been obtained, would run an always-failing operation
exactly 4 times with sleeps `[1, 2, 4]` and re-raise the 4th error. -/
theorem retry_decorator_broken :
    pyCall (asyncRetryWithBackoff (Unit → Unit) (Unit → Unit) ⟨4, 1, 10⟩) id =
      .error .typeError ∧
    retryWrapper ⟨4, 1, 10⟩ (fun n => (.error n : Except ℕ Unit)) =
      some (.error 4, 4, [1, 2, 4]) := by
  constructor
  · rfl
  · norm_num [retryWrapper, retryLoop]

/-! ### forecast_coordinator.py — `MeteoSwissForecastCoordinator._async_update_data` -/

/-- Outcome of one fetch helper: it either raises (any exception, caught
by the tick's `except`) or returns a list of normalized entries. -/
inductive SrcOutcome (α : Type) where
  | raises
  | ret (data : List α)
deriving DecidableEq

/-- The `UpdateFailed` message raised when every source is exhausted. -/
def forecastFailMsg : String := "Could not fetch forecast data from any source"

/-- One tick of `_async_update_data`.  `hasLatLon` is
`self._latitude is not None and self._longitude is not None`, `hasCsvUrl`
is the truthiness of `self._forecast_csv_url` (set iff a station id was
given), `hasPostCode` the truthiness of `self._post_code`.  Returns the
tick's result — the chosen non-empty forecast with its source index
(1 = Open-Meteo, 2 = MeteoSwiss CSV, 3 = MeteoSwiss app API) or the
`UpdateFailed` message — paired with the list of sources consulted. -/
def forecastTick (hasLatLon hasCsvUrl hasPostCode : Bool)
    (openMeteo csvFeed appApi : SrcOutcome α) :
    Except String (List α × ℕ) × List ℕ :=
  let afterApp : Except String (List α × ℕ) × List ℕ :=
    if hasPostCode then
      match appApi with
      | .ret l => if l.isEmpty then (.error forecastFailMsg, [3]) else (.ok (l, 3), [3])
      | .raises => (.error forecastFailMsg, [3])
    else (.error forecastFailMsg, [])
  let afterCsv : Except String (List α × ℕ) × List ℕ :=
    if hasCsvUrl then
      match csvFeed with
      | .ret l => if l.isEmpty then (afterApp.1, 2 :: afterApp.2) else (.ok (l, 2), [2])
      | .raises => (afterApp.1, 2 :: afterApp.2)
    else afterApp
  if hasLatLon then
    match openMeteo with
    | .ret l => if l.isEmpty then (afterCsv.1, 1 :: afterCsv.2) else (.ok (l, 1), [1])
    | .raises => (afterCsv.1, 1 :: afterCsv.2)
  else afterCsv

/-- Modelled from the spec: the first source in priority order that is
applicable and returns a non-empty forecast, with its 1-based index. -/
def specFirstSuccess : ℕ → List (Bool × SrcOutcome α) → Option (List α × ℕ)
  | _, [] => none
  | i, (applicable, o) :: rest =>
    match applicable, o with
    | true, .ret l => if l.isEmpty then specFirstSuccess (i + 1) rest else some (l, i)
    | _, _ => specFirstSuccess (i + 1) rest

/-- Modelled from the spec: the result one forecast tick must produce —
the first applicable non-empty source, else the update-failed error. -/
def specForecastResult (hasLatLon hasCsvUrl hasPostCode : Bool)
    (openMeteo csvFeed appApi : SrcOutcome α) : Except String (List α × ℕ) :=
  match specFirstSuccess 1
      [(hasLatLon, openMeteo), (hasCsvUrl, csvFeed), (hasPostCode, appApi)] with
  | some r => .ok r
  | none => .error forecastFailMsg

set_option maxHeartbeats 2000000 in
/-- C1: for every combination of applicability flags and of each source
raising, returning an empty list, or returning a non-empty list, one
tick returns exactly the first applicable source's non-empty forecast in
priority order (update-failed when there is none), and once a source
succeeds non-empty no later source is consulted. -/
theorem forecast_fallback_chain (hasLatLon hasCsvUrl hasPostCode : Bool)
    (openMeteo csvFeed appApi : SrcOutcome α) :
    (forecastTick hasLatLon hasCsvUrl hasPostCode openMeteo csvFeed appApi).1 =
      specForecastResult hasLatLon hasCsvUrl hasPostCode openMeteo csvFeed appApi ∧
    (∀ r, (forecastTick hasLatLon hasCsvUrl hasPostCode openMeteo csvFeed appApi).1 =
        .ok r →
      ∀ j ∈ (forecastTick hasLatLon hasCsvUrl hasPostCode openMeteo csvFeed appApi).2,
        j ≤ r.2) := by
  cases hasLatLon <;> cases hasCsvUrl <;> cases hasPostCode <;>
    cases openMeteo <;> cases csvFeed <;> cases appApi <;>
    refine ⟨?_, ?_⟩ <;>
    simp only [forecastTick, specForecastResult, specFirstSuccess] <;>
    split_ifs <;>
    simp_all

/-- Witness for `forecast_fallback_chain`: Open-Meteo empty, CSV raising,
app API non-empty — the tick consults 1, 2, 3 and returns source 3. -/
theorem forecast_fallback_chain_witness :
    (forecastTick true true true (SrcOutcome.ret ([] : List ℕ)) .raises
        (.ret [5])).1 = .ok ([5], 3) :=
  (forecast_fallback_chain true true true (SrcOutcome.ret ([] : List ℕ)) .raises
      (.ret [5])).1.trans (by simp [specForecastResult, specFirstSuccess])

/-! ### alerts.py — `WeatherAlert` and `MeteoSwissAlertsAPI` -/

/-- A JSON-ish Python value as delivered by `response.json()`. -/
inductive JVal where
  | null
  | bool (b : Bool)
  | num (q : ℚ)
  | str (s : String)
  | list (items : List JVal)
  | obj (fields : List (String × JVal))

/-- Python truthiness of a `JVal`. -/
def JVal.truthy : JVal → Bool
  | .null => false
  | .bool b => b
  | .num q => q != 0
  | .str s => s != ""
  | .list items => !items.isEmpty
  | .obj fields => !fields.isEmpty

/-- Whether the value can be a `dict` key; a `list` or `dict` raises
`TypeError` when hashed. -/
def JVal.hashable : JVal → Bool
  | .list _ => false
  | .obj _ => false
  | _ => true

/-- The integer a value equals as a `dict` key, if any (`2.0` and `True`
hit the key `2` resp. `1`). -/
def JVal.intKey : JVal → Option ℤ
  | .num q => if q.den = 1 then some q.num else none
  | .bool b => some (if b then 1 else 0)
  | _ => none

/-- The text an f-string interpolates for the value (number formatting is
a representative encoding; the claims settled here never compare two
distinct formatted numbers). -/
def JVal.fstr : JVal → String
  | .null => "None"
  | .bool b => if b then "True" else "False"
  | .num q => if q.den = 1 then toString q.num else toString q
  | .str s => s
  | .list _ => "<list>"
  | .obj _ => "<dict>"

/-- `MeteoSwissAlertsAPI._get_warn_type_name`. -/
def getWarnTypeName (t : JVal) : String :=
  match t.intKey with
  | some 1 => "Thunderstorm"
  | some 2 => "Rain"
  | some 3 => "Snow"
  | some 4 => "Wind"
  | some 10 => "Forest Fire"
  | some 11 => "Flood"
  | _ => "Unknown (" ++ t.fstr ++ ")"

/-- `MeteoSwissAlertsAPI._get_warn_level_name`. -/
def getWarnLevelName (l : JVal) : String :=
  match l.intKey with
  | some 1 => "Level 1 - No/minor danger"
  | some 2 => "Level 2 - Moderate danger"
  | some 3 => "Level 3 - Significant danger"
  | some 4 => "Level 4 - High danger"
  | some 5 => "Level 5 - Very high danger"
  | _ => "Level " ++ l.fstr

/-- The `WeatherAlert` dataclass.  `validFrom`/`validTo` are naive local
datetimes modelled as rational epoch seconds. -/
structure WeatherAlert where
  alertId : String
  warnType : JVal
  warnTypeName : String
  warnLevel : JVal
  warnLevelName : String
  title : String
  description : JVal
  validFrom : Option ℚ
  validTo : Option ℚ
  outlook : JVal

/-- `datetime.fromtimestamp(ts / 1000)` under the surrounding
`try/except (ValueError, TypeError)`: dividing a non-number raises
`TypeError`, leaving the field `None`. -/
def tsDiv1000 : JVal → Option ℚ
  | .num q => some (q / 1000)
  | .bool b => some (if b then 1 / 1000 else 0)
  | _ => none

/-- `MeteoSwissAlertsAPI._parse_single_alert`.  The `html_text` local of
the source is read but never used.  An unhashable `warnLevel`/`warnType`
makes the name-table lookup raise `TypeError`, which the enclosing
`except` turns into `None`. -/
def parseSingleAlert (w : List (String × JVal)) (postalCode : String) :
    Option WeatherAlert :=
  let warningText := (assocLookup "text" w).getD (.str "")
  let warnLevel := (assocLookup "warnLevel" w).getD (.num 0)
  let warnType := (assocLookup "warnType" w).getD (.num 0)
  let validFromTs := assocLookup "validFrom" w
  let validToTs := assocLookup "validTo" w
  let validFrom : Option ℚ :=
    match validFromTs with
    | some v => if v.truthy then tsDiv1000 v else none
    | none => none
  let validTo : Option ℚ :=
    match validToTs with
    | some v => if v.truthy then tsDiv1000 v else none
    | none => none
  let outlook := (assocLookup "outlook" w).getD (.bool false)
  if warnLevel.hashable && warnType.hashable then
    some { alertId := postalCode ++ "_" ++ warnLevel.fstr ++ "_" ++ warnType.fstr
             ++ "_"
             ++ (match validFromTs with
                 | some v => if v.truthy then v.fstr else "now"
                 | none => "now"),
           warnType := warnType, warnTypeName := getWarnTypeName warnType,
           warnLevel := warnLevel, warnLevelName := getWarnLevelName warnLevel,
           title := getWarnTypeName warnType ++ " - " ++ getWarnLevelName warnLevel,
           description := warningText,
           validFrom := validFrom, validTo := validTo, outlook := outlook }
  else none

/-- `MeteoSwissAlertsAPI._parse_alerts`: absent or falsy `warnings` yields
no alerts; a list is parsed element-wise keeping the `dict` elements
that parse; a single `dict` is parsed alone; other shapes are dropped. -/
def parseAlerts (data : List (String × JVal)) (postalCode : String) :
    List WeatherAlert :=
  match assocLookup "warnings" data with
  | none => []
  | some warningsData =>
    if !warningsData.truthy then []
    else
      match warningsData with
      | .list items =>
        items.filterMap fun item =>
          match item with
          | .obj w => parseSingleAlert w postalCode
          | _ => none
      | .obj w =>
        match parseSingleAlert w postalCode with
        | some a => [a]
        | none => []
      | _ => []

/-- How one `MeteoSwissAlertsAPI.get_alerts` fetch attempt ends: an HTTP
response with a status code and JSON body, an `aiohttp.ClientError`, or
any other exception (timeouts, JSON decoding, ...). -/
inductive FetchOutcome where
  | status (code : ℕ) (body : List (String × JVal))
  | clientError
  | otherError

/-- `MeteoSwissAlertsAPI.get_alerts`: non-200 statuses and both `except`
arms all return the empty alert list. -/
def getAlerts (o : FetchOutcome) (postalCode : String) : List WeatherAlert :=
  match o with
  | .status code body => if code ≠ 200 then [] else parseAlerts body postalCode
  | .clientError => []
  | .otherError => []

/-- `WeatherAlert.is_active`: an outlook is never active; no `valid_to`
means active; otherwise `self.valid_from <= now <= self.valid_to`, which
raises `TypeError` when `valid_from` is `None`. -/
def WeatherAlert.isActive (a : WeatherAlert) (now : ℚ) : Except PyErr Bool :=
  if a.outlook.truthy then .ok false
  else
    match a.validTo with
    | none => .ok true
    | some vto =>
      match a.validFrom with
      | none => .error .typeError
      | some vfrom => .ok (decide (vfrom ≤ now ∧ now ≤ vto))

/-- C6 counterexample: the empty object is a warnings `dict` that the
truthiness guard drops, while the one-element list holding it parses to
one (default-valued) alert — the two shapes do not agree there. -/
theorem alerts_shape_counterexample :
    parseAlerts [("warnings", JVal.obj [])] "8001" = [] ∧
    (parseAlerts [("warnings", JVal.list [JVal.obj []])] "8001").length = 1 ∧
    parseAlerts [("warnings", JVal.obj [])] "8001" ≠
      parseAlerts [("warnings", JVal.list [JVal.obj []])] "8001" := by
  refine ⟨rfl, rfl, fun h => ?_⟩
  have hlen := congrArg List.length h
  rw [show (parseAlerts [("warnings", JVal.obj [])] "8001").length = 0 from rfl,
      show (parseAlerts [("warnings", JVal.list [JVal.obj []])] "8001").length = 1
        from rfl] at hlen
  exact absurd hlen (by norm_num)

/-- C6 amended: for every non-empty alert object, a payload carrying it
as the bare `warnings` value and a payload carrying it as a one-element
`warnings` list produce identical alert lists — the single-element list
of its parse when it parses; only the empty object differs between the
two shapes. -/
theorem alerts_shape_normalization (data data2 : List (String × JVal))
    (w : List (String × JVal)) (pc : String)
    (h1 : assocLookup "warnings" data = some (.obj w))
    (h2 : assocLookup "warnings" data2 = some (.list [.obj w]))
    (hw : w ≠ []) :
    parseAlerts data pc = parseAlerts data2 pc ∧
    (∀ a, parseSingleAlert w pc = some a →
      parseAlerts data pc = [a] ∧ parseAlerts data2 pc = [a]) := by
  have htr : (JVal.obj w).truthy = true := by
    simp [JVal.truthy, hw]
  constructor
  · simp only [parseAlerts, h1, h2, htr, JVal.truthy, List.isEmpty_cons,
      Bool.not_false, if_neg, Bool.not_eq_true, Bool.false_eq_true,
      if_false]
    cases hp : parseSingleAlert w pc <;> simp [hp, hw]
  · intro a ha
    constructor <;>
      simp [parseAlerts, h1, h2, htr, ha, JVal.truthy, hw]

/-- Witness for `alerts_shape_normalization` at a one-field warning. -/
theorem alerts_shape_normalization_witness :
    parseAlerts [("warnings", JVal.obj [("warnLevel", JVal.num 2)])] "8001" =
      parseAlerts [("warnings", JVal.list [JVal.obj [("warnLevel", JVal.num 2)]])]
        "8001" :=
  (alerts_shape_normalization
      [("warnings", JVal.obj [("warnLevel", JVal.num 2)])]
      [("warnings", JVal.list [JVal.obj [("warnLevel", JVal.num 2)]])]
      [("warnLevel", JVal.num 2)] "8001" rfl rfl (by simp)).1

/-- An alert as the parser builds it from a payload that carries
`validTo` but no `validFrom`. -/
def c7Alert : WeatherAlert :=
  { alertId := "8001_0_0_now", warnType := .num 0,
    warnTypeName := getWarnTypeName (.num 0), warnLevel := .num 0,
    warnLevelName := getWarnLevelName (.num 0),
    title := getWarnTypeName (.num 0) ++ " - " ++ getWarnLevelName (.num 0),
    description := .str "", validFrom := none, validTo := some 100,
    outlook := .bool false }

/-- C7 counterexample: for a non-outlook alert with `valid_to` present and
`valid_from` absent, `is_active` raises `TypeError` instead of returning
a boolean, and the parser builds exactly such an alert from a payload
that has a `validTo` but no `validFrom`. -/
theorem is_active_counterexample :
    c7Alert.isActive 50 = Except.error PyErr.typeError ∧
    (parseSingleAlert [("validTo", JVal.num 100000)] "8001").map
        (fun a => (a.outlook.truthy, a.validFrom, a.validTo, a.isActive 50)) =
      some (false, none, some 100, Except.error PyErr.typeError) := by
  constructor
  · rfl
  · simp [parseSingleAlert, assocLookup, tsDiv1000, JVal.truthy, JVal.hashable,
      WeatherAlert.isActive]
    norm_num

/-- C7 amended: `is_active` returns `true` exactly when the alert is not
an outlook and either has no `valid_to` or has a `valid_from` with
`valid_from ≤ now ≤ valid_to`; it raises (returns no boolean) exactly
when the alert is not an outlook, `valid_to` is present and `valid_from`
is absent; in every other combination it returns a boolean. -/
theorem is_active_characterization (a : WeatherAlert) (now : ℚ) :
    (a.isActive now = .ok true ↔
      a.outlook.truthy = false ∧
        (a.validTo = none ∨
          ∃ f t, a.validFrom = some f ∧ a.validTo = some t ∧ f ≤ now ∧ now ≤ t)) ∧
    ((∃ e, a.isActive now = .error e) ↔
      a.outlook.truthy = false ∧ a.validFrom = none ∧ a.validTo ≠ none) := by
  cases h : a.outlook.truthy
  · cases hvt : a.validTo with
    | none => simp [WeatherAlert.isActive, h, hvt]
    | some t =>
      cases hvf : a.validFrom with
      | none =>
        simp [WeatherAlert.isActive, h, hvt, hvf]
        exact ⟨PyErr.typeError, trivial⟩
      | some f => simp [WeatherAlert.isActive, h, hvt, hvf]
  · simp [WeatherAlert.isActive, h]

/-- Witness for `is_active_characterization`: an in-window, non-outlook
alert with both bounds present is active at `now = 50`. -/
theorem is_active_characterization_witness :
    ({ c7Alert with validFrom := some 0 } : WeatherAlert).isActive 50 = .ok true :=
  (is_active_characterization ({ c7Alert with validFrom := some 0 }) 50).1.mpr
    ⟨rfl, Or.inr ⟨0, 100, rfl, rfl, by norm_num, by norm_num⟩⟩

/-- C10: the alerts fetch never lets a failure escape: a non-200 status,
a client error and any other exception each produce the empty alert
list, the same value a successful fetch with an empty warnings list
produces. -/
theorem alerts_error_opacity (pc : String) (code : ℕ)
    (body : List (String × JVal)) (h : code ≠ 200) :
    getAlerts (.status code body) pc = [] ∧
    getAlerts .clientError pc = [] ∧
    getAlerts .otherError pc = [] ∧
    getAlerts (.status 200 [("warnings", JVal.list [])]) pc = [] := by
  refine ⟨?_, rfl, rfl, ?_⟩
  · simp [getAlerts, h]
  · simp [getAlerts, parseAlerts, assocLookup, JVal.truthy]

/-- Witness for `alerts_error_opacity`: a 500 response with a live warning
in the body still yields no alerts. -/
theorem alerts_error_opacity_witness :
    getAlerts (.status 500 [("warnings", JVal.obj [("warnLevel", JVal.num 3)])])
      "8001" = [] :=
  (alerts_error_opacity "8001" 500
      [("warnings", JVal.obj [("warnLevel", JVal.num 3)])] (by norm_num)).1

/-! ### stations_map.py — `MeteoSwissStationsMap.load_stations` decode loop -/

/-- Python `str` whitespace for `strip()`. -/
def isPySpace (c : Char) : Bool :=
  c = ' ' || c = '\t' || c = '\n' || c = '\r' || c = '\x0b' || c = '\x0c'

/-- Python `s.strip()`. -/
def pyStrip (s : String) : String :=
  String.mk (((s.toList.dropWhile isPySpace).reverse.dropWhile isPySpace).reverse)

/-- Splitting a character list on a separator character, keeping empty
segments, as Python `str.split` with an explicit separator does. -/
def splitOnCharAux (c : Char) : List Char → List Char → List (List Char)
  | [], acc => [acc.reverse]
  | x :: rest, acc =>
    if x = c then acc.reverse :: splitOnCharAux c rest []
    else splitOnCharAux c rest (x :: acc)

/-- Python `s.split("\n")`. -/
def pySplitLines (s : String) : List String :=
  (splitOnCharAux '\n' s.toList []).map String.mk

/-- The encoding candidates of `load_stations`, in source order. -/
def ENCODING_CANDIDATES : List String :=
  ["iso-8859-1", "latin-1", "cp1252", "utf-8-sig", "utf-8"]

/-- `decoded.strip().split("\n")`. -/
def decodeLines (s : String) : List String :=
  pySplitLines (pyStrip s)

/-- The `for encoding in [...]` loop of `load_stations`.  `dec e` is the
outcome of `content_bytes.decode(e)` — `none` for a `UnicodeDecodeError`
(which `continue`s), `some` for the decoded text.  The mutable `lines`
local is threaded as the accumulator: every successful decode overwrites
it, and the loop `break`s on the first decode of more than 10 lines. -/
def decodeLoop (dec : String → Option String) :
    List String → Option (List String) → Option (List String)
  | [], lines => lines
  | e :: rest, lines =>
    match dec e with
    | none => decodeLoop dec rest lines
    | some s =>
      let ls := decodeLines s
      if ls.length > 10 then some ls else decodeLoop dec rest (some ls)

/-- The decode stage of `load_stations`: run the loop over the candidate
encodings, then `if not lines or len(lines) < 2`, fail (the source
returns `{}`), else hand the lines to the CSV parsing stage. -/
def loadStationsDecode (dec : String → Option String) : Option (List String) :=
  match decodeLoop dec ENCODING_CANDIDATES none with
  | none => none
  | some ls => if ls.length < 2 then none else some ls

/-- Modelled from the spec: the output of the first encoding, in priority
order, whose decoded text has more than 10 lines. -/
def firstQualifying (dec : String → Option String) : List String → Option (List String)
  | [] => none
  | e :: rest =>
    match dec e with
    | some s =>
      let ls := decodeLines s
      if ls.length > 10 then some ls else firstQualifying dec rest
    | none => firstQualifying dec rest

/-- The output of the last encoding that decodes without error. -/
def lastSuccessful (dec : String → Option String) :
    List String → Option (List String) → Option (List String)
  | [], acc => acc
  | e :: rest, acc =>
    match dec e with
    | some s => lastSuccessful dec rest (some (decodeLines s))
    | none => lastSuccessful dec rest acc

theorem decodeLoop_spec (dec : String → Option String) (encs : List String)
    (acc : Option (List String)) :
    decodeLoop dec encs acc =
      match firstQualifying dec encs with
      | some ls => some ls
      | none => lastSuccessful dec encs acc := by
  induction encs generalizing acc with
  | nil => simp [decodeLoop, firstQualifying, lastSuccessful]
  | cons e rest ih =>
    cases hd : dec e with
    | none => simp [decodeLoop, firstQualifying, lastSuccessful, hd, ih]
    | some s =>
      by_cases hl : (decodeLines s).length > 10
      · simp [decodeLoop, firstQualifying, lastSuccessful, hd, hl]
      · simp [decodeLoop, firstQualifying, lastSuccessful, hd, hl, ih]

theorem firstQualifying_length (dec : String → Option String)
    (encs : List String) (ls : List String)
    (h : firstQualifying dec encs = some ls) : ls.length > 10 := by
  induction encs with
  | nil => simp [firstQualifying] at h
  | cons e rest ih =>
    cases hd : dec e with
    | none =>
      simp only [firstQualifying, hd] at h
      exact ih h
    | some s =>
      simp only [firstQualifying, hd] at h
      by_cases hl : (decodeLines s).length > 10
      · rw [if_pos hl] at h
        injection h with h2
        rw [← h2]
        exact hl
      · rw [if_neg hl] at h
        exact ih h

/-- C5 counterexample: three-line ASCII content decodes identically (and
without error) under every candidate, so no encoding qualifies with more
than 10 lines, yet the decode stage succeeds with the 3-line fallback
instead of failing as the claim requires. -/
theorem decode_no_qualifier_counterexample :
    loadStationsDecode (fun _ => some "a\nb\nc") = some ["a", "b", "c"] ∧
    firstQualifying (fun _ => some "a\nb\nc") ENCODING_CANDIDATES = none := by
  constructor <;> decide

/-- C5 amended: the decoder tries the encodings in the fixed priority
order and accepts the first whose decoded output exceeds 10 lines; when
no encoding qualifies it does not fail outright but falls back to the
output of the last encoding that decoded without error, and it fails
exactly when no encoding decoded successfully or that fallback output
has fewer than 2 lines. -/
theorem decode_priority_and_fallback (dec : String → Option String) :
    loadStationsDecode dec =
      match firstQualifying dec ENCODING_CANDIDATES with
      | some ls => some ls
      | none =>
        match lastSuccessful dec ENCODING_CANDIDATES none with
        | none => none
        | some ls => if ls.length < 2 then none else some ls := by
  rw [loadStationsDecode, decodeLoop_spec]
  cases hq : firstQualifying dec ENCODING_CANDIDATES with
  | some ls =>
    have h11 := firstQualifying_length dec ENCODING_CANDIDATES ls hq
    simp only [hq]
    rw [if_neg (by omega)]
  | none => simp only [hq]

/-! ### coordinator.py — `MeteoSwissDataUpdateCoordinator` -/

/-- Python `s.split(";")`. -/
def pySplitSemi (s : String) : List String :=
  (splitOnCharAux ';' s.toList []).map String.mk

/-- Value of a decimal digit string. -/
def digitsVal (l : List Char) : ℕ :=
  l.foldl (fun a c => a * 10 + (c.toNat - 48)) 0

/-- Python `float(s)` on the plain decimal literals the feed carries:
optional surrounding whitespace, optional sign, digits with an optional
fractional part. -/
def pyFloat (s : String) : Option ℚ :=
  let t := (pyStrip s).toList
  let signed : ℚ × List Char :=
    match t with
    | '-' :: r => (-1, r)
    | '+' :: r => (1, r)
    | r => (1, r)
  let sign := signed.1
  let rest := signed.2
  let intPart := rest.takeWhile (fun c => c != '.')
  let dotPart := rest.drop intPart.length
  match dotPart with
  | [] =>
    if intPart ≠ [] ∧ intPart.all Char.isDigit then
      some (sign * (digitsVal intPart : ℚ))
    else none
  | '.' :: frac =>
    if intPart.all Char.isDigit ∧ frac.all Char.isDigit ∧
        (intPart ≠ [] ∨ frac ≠ []) then
      some (sign * ((digitsVal intPart : ℚ) + (digitsVal frac : ℚ) / 10 ^ frac.length))
    else none
  | _ => none

/-- Python `int(q)` for a float: truncation toward zero. -/
def pyIntTrunc (q : ℚ) : ℤ :=
  if q ≥ 0 then ⌊q⌋ else -⌊-q⌋

def isLeapYear (y : ℕ) : Bool :=
  y % 4 == 0 && (y % 100 != 0 || y % 400 == 0)

def daysInMonth (y m : ℕ) : ℕ :=
  if m = 2 then (if isLeapYear y then 29 else 28)
  else if m = 4 ∨ m = 6 ∨ m = 9 ∨ m = 11 then 30
  else 31

def pad2 (n : ℕ) : String :=
  if n < 10 then "0" ++ toString n else toString n

def pad4 (n : ℕ) : String :=
  if n < 10 then "000" ++ toString n
  else if n < 100 then "00" ++ toString n
  else if n < 1000 then "0" ++ toString n
  else toString n

/-- `datetime.strptime(s, "%d.%m.%Y %H:%M").isoformat()` on the
zero-padded form the feed carries, validating field ranges as `strptime`
does; `none` is the `ValueError` case. -/
def parseGermanTimestamp (s : String) : Option String :=
  match s.toList with
  | [d1, dd2, '.', m1, m2, '.', y1, y2, y3, y4, ' ', h1, h2, ':', n1, n2] =>
    if [d1, dd2, m1, m2, y1, y2, y3, y4, h1, h2, n1, n2].all Char.isDigit then
      let d := digitsVal [d1, dd2]
      let m := digitsVal [m1, m2]
      let y := digitsVal [y1, y2, y3, y4]
      let h := digitsVal [h1, h2]
      let mi := digitsVal [n1, n2]
      if 1 ≤ m ∧ m ≤ 12 ∧ 1 ≤ d ∧ d ≤ daysInMonth y m ∧ h ≤ 23 ∧ mi ≤ 59 then
        some (pad4 y ++ "-" ++ pad2 m ++ "-" ++ pad2 d ++ "T" ++ pad2 h ++ ":"
          ++ pad2 mi ++ ":00")
      else none
    else none
  | _ => none

/-- A value in the normalized reading dictionary. -/
inductive PVal where
  | pnone
  | num (q : ℚ)
  | intv (n : ℤ)
  | str (s : String)
deriving DecidableEq

def SENSOR_TEMPERATURE : String := "temperature"

def SENSOR_HUMIDITY : String := "humidity"

def SENSOR_WIND_SPEED : String := "wind_speed"

def SENSOR_WIND_DIRECTION : String := "wind_direction"

def SENSOR_PRECIPITATION : String := "precipitation"

def SENSOR_PRESSURE : String := "pressure"

def PARAM_TEMPERATURE : String := "tre005s0"

def PARAM_HUMIDITY : String := "xchills0"

def PARAM_WIND_SPEED : String := "tde200s0"

def PARAM_WIND_DIR : String := "prestas0"

def PARAM_PRESSURE : String := "pp0qffs0"

/-- One `value = row.get(param); if value and value.strip(): try
float(value) except: leave None` block of `_parse_csv_row`. -/
def parseFloatField (row : List (String × String)) (param : String) : PVal :=
  match assocLookup param row with
  | none => .pnone
  | some v =>
    if v ≠ "" ∧ pyStrip v ≠ "" then
      match pyFloat v with
      | some q => .num q
      | none => .pnone
    else .pnone

/-- The wind-direction block: `int(float(value))`. -/
def parseWindDirField (row : List (String × String)) : PVal :=
  match assocLookup PARAM_WIND_DIR row with
  | none => .pnone
  | some v =>
    if v ≠ "" ∧ pyStrip v ≠ "" then
      match pyFloat v with
      | some q => .intv (pyIntTrunc q)
      | none => .pnone
    else .pnone

/-- The `reference_timestamp` block: a parse failure falls back to
`datetime.now().isoformat()`, passed in as `nowIso`. -/
def parseTimestampField (row : List (String × String)) (nowIso : String) : PVal :=
  match assocLookup "reference_timestamp" row with
  | none => .pnone
  | some v =>
    if v ≠ "" ∧ pyStrip v ≠ "" then
      match parseGermanTimestamp (pyStrip v) with
      | some iso => .str iso
      | none => .str nowIso
    else .pnone

/-- `MeteoSwissDataUpdateCoordinator._parse_csv_row`: the result dict is
initialized with all seven keys mapped to `None` and each block may
overwrite its key; `precipitation` is never assigned by the source. -/
def parseCsvRow (row : List (String × String)) (nowIso : String) :
    List (String × PVal) :=
  [(SENSOR_TEMPERATURE, parseFloatField row PARAM_TEMPERATURE),
   (SENSOR_HUMIDITY, parseFloatField row PARAM_HUMIDITY),
   (SENSOR_WIND_SPEED, parseFloatField row PARAM_WIND_SPEED),
   (SENSOR_WIND_DIRECTION, parseWindDirField row),
   (SENSOR_PRECIPITATION, .pnone),
   (SENSOR_PRESSURE, parseFloatField row PARAM_PRESSURE),
   ("last_update", parseTimestampField row nowIso)]

/-- `for i, header in enumerate(headers): if i < len(values):
row_dict[header] = values[i]`. -/
def buildRowDict (headers values : List String) : List (String × String) :=
  (headers.zip values).foldl (fun d hv => assocSet hv.1 hv.2 d) []

/-- `for line in reversed(lines[1:]): if line.strip(): data_row =
line.strip(); break`. -/
def lastNonEmptyRow (ls : List String) : Option String :=
  (ls.reverse.find? (fun l => pyStrip l != "")).map pyStrip

/-- `MeteoSwissDataUpdateCoordinator._async_download_and_parse_csv` after
the HTTP layer: `content` is the response text (`none` for a non-200
status or a network error, both of which make the source return
`None`). -/
def downloadParseCsv (content : Option String) (nowIso : String) :
    Option (List (String × PVal)) :=
  match content with
  | none => none
  | some text =>
    let lines := pySplitLines (pyStrip text)
    if lines.length < 2 then none
    else
      match lines with
      | [] => none
      | headerLine :: restLines =>
        let headers := (pySplitSemi headerLine).map pyStrip
        match lastNonEmptyRow restLines with
        | none => none
        | some dataRow =>
          let values := (pySplitSemi dataRow).map pyStrip
          some (parseCsvRow (buildRowDict headers values) nowIso)

/-- One tick of `MeteoSwissDataUpdateCoordinator._async_update_data`:
cache lookup under `"station:" + station_id`, then URL discovery
(`csvUrl` is `_async_get_station_data_url`'s result), then download
and parse, with `UpdateFailed` raised only when the URL is missing, the
parse returned `None`, or the parsed dict is empty; a non-empty parse is
written through to the cache and published. -/
def updateTick (now : ℚ) (nowIso : String) (stationId : String)
    (cacheSt : Cache (List (String × PVal))) (csvUrl : Option String)
    (content : Option String) :
    Except String (List (String × PVal)) × Cache (List (String × PVal)) :=
  let key := "station:" ++ stationId
  match cacheSt.get now key with
  | (some d, st1) => (.ok d, st1)
  | (none, st1) =>
    match csvUrl with
    | none => (.error "Could not find station data URL", st1)
    | some _ =>
      match downloadParseCsv content nowIso with
      | none => (.error "Failed to parse station data: parsed_data is None", st1)
      | some row =>
        if row.isEmpty then
          (.error "Failed to parse station data: parsed_data is empty", st1)
        else
          (.ok row, st1.set now key (some row) none)

/-- C2: evaluating the tick at a successfully fetched CSV whose row
carries none of the mapped parameter identifiers — header `foo;bar`,
row `1;2` — the tick does NOT fail: it publishes the snapshot with every
field `None`, because `_parse_csv_row` always returns a seven-key dict
and the `if not parsed_data` guard cannot fire. -/
theorem csv_all_absent_published :
    (updateTick 0 "2025-06-01T00:00:00" "abc"
        (Cache.mk0 (List (String × PVal)) 300)
        (some "https://data.example/x.csv") (some "foo;bar\n1;2")).1 =
      .ok [(SENSOR_TEMPERATURE, PVal.pnone), (SENSOR_HUMIDITY, PVal.pnone),
           (SENSOR_WIND_SPEED, PVal.pnone), (SENSOR_WIND_DIRECTION, PVal.pnone),
           (SENSOR_PRECIPITATION, PVal.pnone), (SENSOR_PRESSURE, PVal.pnone),
           ("last_update", PVal.pnone)] := by
  decide

end MeteoSwiss
